import Mathlib

/-!
Verification of the Rubiks-Cube-Solver repository (`src/python/src`).

The cube (`cube.py`) stores 6 faces, each a 3x3 grid of colour codes
(numpy `int8`, values 0..5 in practice; modelled here as `Nat`).
Face indexing: 0 Front, 1 Back, 2 Up, 3 Down, 4 Left, 5 Right.
A cube state is modelled as a function `Fin 6 → Fin 3 → Fin 3 → Nat`.

The solvers (`solvers/bfs_solver.py`, `solvers/astar_solver.py`) are
modelled with an explicit store of numpy arrays, because their observable
behaviour on the caller's array (and the `TypeError` they raise when the
input is not already solved) are what the claims are about.
-/

/-- A single face: a 3x3 grid of colour codes. -/
abbrev Face := Fin 3 → Fin 3 → Nat

/-- A cube state: 6 faces of 3x3 stickers (`RubiksCube.faces`). -/
abbrev Cube := Fin 6 → Face

/-- Index reversal on `Fin 3` (models the `::-1` slices and `-1` index). -/
def rev : Fin 3 → Fin 3
  | 0 => 2
  | 1 => 1
  | 2 => 0

/-- One application of `np.rot90` (k = 1): `result[i][j] = m[j][n-1-i]`. -/
def rot90 (f : Face) : Face := fun i j => f j (rev i)

/-- `RubiksCube._rotate_face`: `np.rot90` with `k = 1` if clockwise else
`k = 3` (three `k = 1` rotations). -/
def rotate_face (clockwise : Bool) (f : Face) : Face :=
  if clockwise then rot90 f else rot90 (rot90 (rot90 f))

/-- `RubiksCube._get_face_edge`: edge 0 = top row, 1 = right column,
2 = bottom row reversed, 3 = left column reversed. -/
def get_face_edge (c : Cube) (face : Fin 6) (edge : Fin 4) : Fin 3 → Nat :=
  fun j =>
    match edge with
    | 0 => c face 0 j
    | 1 => c face j 2
    | 2 => c face 2 (rev j)
    | 3 => c face (rev j) 0

/-- `RubiksCube._set_face_edge`: edges 2 and 3 write the new strip
reversed, matching the reversed reads. -/
def set_face_edge (f : Face) (edge : Fin 4) (e : Fin 3 → Nat) : Face :=
  fun r j =>
    match edge with
    | 0 => if r = 0 then e j else f r j
    | 1 => if j = 2 then e r else f r j
    | 2 => if r = 2 then e (rev j) else f r j
    | 3 => if j = 0 then e (rev r) else f r j

/-- Replace one face of the cube (in-place numpy assignment, modelled
functionally). -/
def updFace (c : Cube) (fi : Fin 6) (nf : Face) : Cube :=
  fun f => if f = fi then nf else c f

/-- Write a list of edge strips back, in order (the `for ... zip` loop in
each `move_X`). -/
def setEdges (c : Cube) (assignments : List ((Fin 6 × Fin 4) × (Fin 3 → Nat))) : Cube :=
  assignments.foldl (fun acc a => updFace acc a.1.1 (set_face_edge (acc a.1.1) a.1.2 a.2)) c

/-- `edge_values[shift:] + edge_values[:shift]` for `shift = 1` (true) or
`shift = -1` (false). -/
def cycleShift (shiftOne : Bool) (l : List (Fin 3 → Nat)) : List (Fin 3 → Nat) :=
  if shiftOne then l.drop 1 ++ l.take 1
  else l.drop (l.length - 1) ++ l.take (l.length - 1)

/-- Shared edge-cycling part of every `move_X`: read the four strips,
cyclically shift them, write them back. -/
def moveEdges (c : Cube) (edges : List (Fin 6 × Fin 4)) (shiftOne : Bool) : Cube :=
  let edge_values := edges.map fun fe => get_face_edge c fe.1 fe.2
  let shifted := cycleShift shiftOne edge_values
  setEdges c (edges.zip shifted)

/-- `RubiksCube.move_F`: rotate face 0 (clockwise iff not prime), cycle
edges `[(2,2),(5,3),(3,0),(4,1)]` with `shift = 1 if prime else -1`. -/
def move_F (prime : Bool) (c : Cube) : Cube :=
  moveEdges (updFace c 0 (rotate_face (!prime) (c 0))) [(2, 2), (5, 3), (3, 0), (4, 1)] prime

/-- `RubiksCube.move_B`: rotate face 1, cycle `[(2,0),(4,3),(3,2),(5,1)]`
with `shift = -1 if prime else 1`. -/
def move_B (prime : Bool) (c : Cube) : Cube :=
  moveEdges (updFace c 1 (rotate_face (!prime) (c 1))) [(2, 0), (4, 3), (3, 2), (5, 1)] (!prime)

/-- `RubiksCube.move_U`: rotate face 2, cycle `[(0,0),(5,0),(1,0),(4,0)]`
with `shift = 1 if prime else -1`. -/
def move_U (prime : Bool) (c : Cube) : Cube :=
  moveEdges (updFace c 2 (rotate_face (!prime) (c 2))) [(0, 0), (5, 0), (1, 0), (4, 0)] prime

/-- `RubiksCube.move_D`: rotate face 3, cycle `[(0,2),(4,2),(1,2),(5,2)]`
with `shift = 1 if prime else -1`. -/
def move_D (prime : Bool) (c : Cube) : Cube :=
  moveEdges (updFace c 3 (rotate_face (!prime) (c 3))) [(0, 2), (4, 2), (1, 2), (5, 2)] prime

/-- `RubiksCube.move_L`: rotate face 4, cycle `[(0,3),(2,3),(1,1),(3,3)]`
with `shift = 1 if prime else -1`. -/
def move_L (prime : Bool) (c : Cube) : Cube :=
  moveEdges (updFace c 4 (rotate_face (!prime) (c 4))) [(0, 3), (2, 3), (1, 1), (3, 3)] prime

/-- `RubiksCube.move_R`: rotate face 5, cycle `[(0,1),(3,1),(1,3),(2,1)]`
with `shift = 1 if prime else -1`. -/
def move_R (prime : Bool) (c : Cube) : Cube :=
  moveEdges (updFace c 5 (rotate_face (!prime) (c 5))) [(0, 1), (3, 1), (1, 3), (2, 1)] prime

/-- Dispatch a move by face index (0 F, 1 B, 2 U, 3 D, 4 L, 5 R) and
prime flag; this is the table `apply_move` dispatches through. -/
def applyFaceMove (f : Fin 6) (prime : Bool) : Cube → Cube :=
  match f with
  | 0 => move_F prime
  | 1 => move_B prime
  | 2 => move_U prime
  | 3 => move_D prime
  | 4 => move_L prime
  | 5 => move_R prime

/-- The solved cube built by `RubiksCube.__init__`: `faces[i][:][:] = i`. -/
def initialCube : Cube := fun f _ _ => f.val

/-- `RubiksCube.is_solved`: every face uniformly equals its own `[0][0]`
sticker. -/
def is_solved (c : Cube) : Bool :=
  (List.finRange 6).all fun f =>
    (List.finRange 3).all fun r =>
      (List.finRange 3).all fun j => c f r j == c f 0 0

/-- `AStarSolver._heuristic`: for each face, count stickers differing from
that face's centre sticker `faces[f][1][1]`, summed over the 6 faces. -/
def heuristic (c : Cube) : Nat :=
  ((List.finRange 6).map fun f =>
    ((List.finRange 3).map fun r =>
      ((List.finRange 3).map fun j =>
        if c f r j ≠ c f 1 1 then 1 else 0).sum).sum).sum

/-! ## Sticker positions and the source-position view of a move

Each move only relocates stickers: the sticker at position `q` after a
move is the sticker that sat at `src f p q` before it. The source
position is computed by applying the move to a cube whose stickers are
their own position codes. -/

/-- A sticker position: (face, row, column). -/
abbrev Pos := Fin 6 × Fin 3 × Fin 3

/-- Read a cube at a position. -/
def cval (c : Cube) (p : Pos) : Nat := c p.1 p.2.1 p.2.2

/-- The cube whose sticker at (f, r, j) is its own position code. -/
def posCube : Cube := fun f r j => f.val * 9 + r.val * 3 + j.val

/-- Decode a position code back into a position. -/
def decodePos (n : Nat) : Pos :=
  (⟨n / 9 % 6, Nat.mod_lt _ (by decide)⟩,
   ⟨n / 3 % 3, Nat.mod_lt _ (by decide)⟩,
   ⟨n % 3, Nat.mod_lt _ (by decide)⟩)

/-- The position whose sticker a move transports to `q`. -/
def src (f : Fin 6) (p : Bool) (q : Pos) : Pos :=
  decodePos (cval (applyFaceMove f p posCube) q)

/-- All 54 sticker positions. -/
def allPos : List Pos :=
  (List.finRange 6).flatMap fun f =>
    (List.finRange 3).flatMap fun r =>
      (List.finRange 3).map fun j => (f, r, j)

/-- The multiset of all 54 sticker values of a cube. -/
def stickers (c : Cube) : Multiset Nat := (allPos.map (cval c) : List Nat)

/-- States reachable from the solved cube by applying moves. -/
inductive ReachableCube : Cube → Prop where
  | start : ReachableCube initialCube
  | step : ∀ (c : Cube) (f : Fin 6) (p : Bool),
      ReachableCube c → ReachableCube (applyFaceMove f p c)

/-! ## Move tokens: `apply_move` and `apply_algorithm` -/

/-- The apostrophe character (code point 39), the prime marker in move
notation. -/
def primeChar : Char := Char.ofNat 39

/-- Python `str.strip()`: drop leading and trailing whitespace. -/
def pyStrip (l : List Char) : List Char :=
  ((l.dropWhile Char.isWhitespace).reverse.dropWhile Char.isWhitespace).reverse

/-- Helper for `pySplit`: accumulates the current word (reversed). -/
def pySplitAux : List Char → List Char → List (List Char)
  | [], cur => if cur.isEmpty then [] else [cur.reverse]
  | ch :: t, cur =>
    if ch.isWhitespace then
      if cur.isEmpty then pySplitAux t [] else cur.reverse :: pySplitAux t []
    else pySplitAux t (ch :: cur)

/-- Python `str.split()` with no argument: whitespace-separated words,
never producing empty words. -/
def pySplit (l : List Char) : List (List Char) := pySplitAux l []

/-- The six face letters, in the order `apply_move` tests them. -/
def faceLetters : List Char := ['F', 'B', 'U', 'D', 'L', 'R']

/-- The parsing part of `RubiksCube.apply_move`: strip the token; if it
has at least two characters and the second is an apostrophe, set the
prime flag and keep only the first character (anything after the
apostrophe is dropped); then compare against the six face letters.
`none` models the `Invalid move` ValueError. -/
def parse_move (mv : List Char) : Option (Fin 6 × Bool) :=
  let m := pyStrip mv
  let pm : Bool × List Char :=
    match m with
    | c0 :: c1 :: _ => if c1 = primeChar then (true, [c0]) else (false, m)
    | _ => (false, m)
  if pm.2 = ['F'] then some (0, pm.1)
  else if pm.2 = ['B'] then some (1, pm.1)
  else if pm.2 = ['U'] then some (2, pm.1)
  else if pm.2 = ['D'] then some (3, pm.1)
  else if pm.2 = ['L'] then some (4, pm.1)
  else if pm.2 = ['R'] then some (5, pm.1)
  else none

/-- `RubiksCube.apply_move` on a token given as a character list: parse,
then dispatch to the matching `move_X`. -/
def apply_move_chars (c : Cube) (mv : List Char) : Option Cube :=
  (parse_move mv).map fun fp => applyFaceMove fp.1 fp.2 c

/-- `RubiksCube.apply_move`. -/
def apply_move (c : Cube) (mv : String) : Option Cube := apply_move_chars c mv.data

/-- The loop of `RubiksCube.apply_algorithm`: apply tokens left to right;
the first invalid token stops the loop, leaving the state mutated by the
prior valid moves and the error flag `false` (an uncaught ValueError). -/
def applyTokens : Cube → List (List Char) → Cube × Bool
  | c, [] => (c, true)
  | c, t :: ts =>
    match apply_move_chars c t with
    | some c2 => applyTokens c2 ts
    | none => (c, false)

/-- `RubiksCube.apply_algorithm`: split the string on whitespace and
apply each token in order. -/
def apply_algorithm (c : Cube) (alg : String) : Cube × Bool :=
  applyTokens c (pySplit alg.data)

/-- Apply a list of tokens, skipping invalid ones; on a list of valid
tokens this is exactly the left-to-right move application. -/
def applyChain (c : Cube) (ts : List (List Char)) : Cube :=
  ts.foldl (fun s t => match apply_move_chars s t with | some s2 => s2 | none => s) c

/-- The 12 tokens of `basic_moves`: a face letter, plus an apostrophe for
the primed variant. -/
def moveToken (f : Fin 6) (p : Bool) : List Char :=
  (match f with
   | 0 => ['F']
   | 1 => ['B']
   | 2 => ['U']
   | 3 => ['D']
   | 4 => ['L']
   | 5 => ['R']) ++ (if p then [primeChar] else [])

/-- Whether a character is one of the six face letters. -/
def isFaceLetter (f : Char) : Bool :=
  (f == 'F') || (f == 'B') || (f == 'U') || (f == 'D') || (f == 'L') || (f == 'R')

/-- The tokens `apply_move` actually accepts, read off the code: after
stripping, a single face letter, or a face letter whose second character
is an apostrophe — with any further characters ignored. -/
def codeTokenAccepted (tok : List Char) : Bool :=
  match pyStrip tok with
  | [f] => isFaceLetter f
  | f :: q :: _ => isFaceLetter f && (q == primeChar)
  | _ => false

/-- Modelled from the spec: "a face letter in {F,B,U,D,L,R}, optionally
followed by a single apostrophe for counter-clockwise" — the token
grammar the spec claims `apply_move` enforces (after stripping), with
nothing allowed after the apostrophe. -/
def specTokenWellFormed (tok : List Char) : Bool :=
  match pyStrip tok with
  | [f] => isFaceLetter f
  | [f, q] => isFaceLetter f && (q == primeChar)
  | _ => false

/-- A move token as a string. -/
def moveTokenStr (f : Fin 6) (p : Bool) : String := String.mk (moveToken f p)

/-- One round of the "sexy move" algorithm: the tokens of "R U R\x27 U\x27". -/
def sexyTokens : List Char :=
  ['R', ' ', 'U', ' ', 'R', primeChar, ' ', 'U', primeChar]

/-- The test algorithm string: "R U R\x27 U\x27" repeated six times. -/
def sexySix : String := String.mk (List.flatten (List.replicate 6 (sexyTokens ++ [' '])))

/-- A malformed-looking token: a face letter, an apostrophe, then a
trailing character. -/
def primeXtoken : List Char := ['F', primeChar, 'x']

/-! ## The solvers

`BFSSolver.solve` and `AStarSolver.solve` mutate numpy arrays in place,
so they are modelled against an explicit store of arrays; the caller's
cube is the array at a given id. Both return Python tuples
`(found, moves, nodes_explored, time)`; the wall-clock time component is
omitted from the model. -/

/-- Result of a Python call: a normal return, or an uncaught `TypeError`. -/
inductive PyResult (α : Type) where
  | ok : α → PyResult α
  | typeError : PyResult α
deriving DecidableEq

/-- A store of numpy arrays, addressed by id. -/
structure Store where
  mem : Nat → Cube
  next : Nat

/-- Allocate a fresh array holding `v`, returning the new store and the
fresh id. -/
def halloc (s : Store) (v : Cube) : Store × Nat :=
  ({ mem := fun i => if i = s.next then v else s.mem i, next := s.next + 1 }, s.next)

/-- `_cube_state_to_hashable` is `tuple(tuple(tuple(face) for face in
cube.faces))`: `tuple(face)` iterates a 3x3 numpy array over its first
axis, so each face contributes a 3-tuple of numpy 1-D row arrays, not of
scalars. The row arrays are modelled as `Fin 3 → Nat` functions. -/
def cube_state_to_hashable (c : Cube) : List (List (Fin 3 → Nat)) :=
  (List.finRange 6).map fun f => (List.finRange 3).map fun r => fun j => c f r j

/-- `BFSSolver.solve` against the store, given `max_depth` and the id of
the caller's faces array. A solved input returns `(True, [], 0)` before
any allocation. Otherwise the solver allocates `cube_copy` (a fresh
`RubiksCube()` array, then rebinds `cube_copy.faces` to a fresh
`np.copy` of the input) and executes
`visited = {self._cube_state_to_hashable(cube_copy)}` — hashing that key
raises `TypeError`, because its elements are tuples of numpy row arrays
(see `cube_state_to_hashable`) and `numpy.ndarray` is unhashable. So on
every not-solved input the call raises before the search loop starts. -/
def bfs_solve_mem (maxDepth : Nat) (s : Store) (cubeId : Nat) :
    Store × PyResult (Bool × List (List Char) × Nat) :=
  let cube := s.mem cubeId
  if is_solved cube then (s, .ok (true, [], 0))
  else
    let a1 := halloc s initialCube
    let a2 := halloc a1.1 (s.mem cubeId)
    (a2.1, .typeError)

/-- `AStarSolver.solve` against the store. A solved input returns
`(True, [], 0)` immediately. Otherwise: `cube_copy` is allocated as in
BFS, `start_state` (the unhashable key) and `start_h` (the heuristic of
the copy, a pure read) are computed, `open_set` and `came_from` are
built without hashing, and then `g_score = {start_state: 0}` raises
`TypeError` hashing the key. -/
def astar_solve_mem (maxDepth : Nat) (s : Store) (cubeId : Nat) :
    Store × PyResult (Bool × List (List Char) × Nat) :=
  let cube := s.mem cubeId
  if is_solved cube then (s, .ok (true, [], 0))
  else
    let a1 := halloc s initialCube
    let a2 := halloc a1.1 (s.mem cubeId)
    let _start_h := heuristic (a2.1.mem a2.2)
    (a2.1, .typeError)

/-- `BFSSolver.solve` on a cube value: run against a one-array store. -/
def bfs_solve (maxDepth : Nat) (c : Cube) : PyResult (Bool × List (List Char) × Nat) :=
  (bfs_solve_mem maxDepth { mem := fun _ => c, next := 1 } 0).2

/-- `AStarSolver.solve` on a cube value: run against a one-array store. -/
def astar_solve (maxDepth : Nat) (c : Cube) : PyResult (Bool × List (List Char) × Nat) :=
  (astar_solve_mem maxDepth { mem := fun _ => c, next := 1 } 0).2

/-! ## Move-engine lemmas -/

/-- Every move reads each target position from a fixed source position:
the functional form of "a move only relocates stickers". -/
theorem applyFaceMove_src (f : Fin 6) (p : Bool) (c : Cube) :
    applyFaceMove f p c = fun a b d => cval c (src f p (a, b, d)) := by
  fin_cases f <;> cases p <;>
    (funext a b d; fin_cases a <;> fin_cases b <;> fin_cases d <;> rfl)

set_option maxHeartbeats 1600000 in
/-- Undoing: the source map of a move composed with the source map of its
primed-flipped variant is the identity on positions. -/
theorem src_invq : ∀ (f : Fin 6) (p : Bool) (q : Pos),
    src f p (src f (!p) q) = q := by
  intro f p q
  obtain ⟨a, b, d⟩ := q
  fin_cases f <;> cases p <;> fin_cases a <;> fin_cases b <;> fin_cases d <;> rfl

set_option maxHeartbeats 3200000 in
/-- Order four: chasing a sticker back through the same move four times
returns to the starting position. -/
theorem src_pow4q : ∀ (f : Fin 6) (p : Bool) (q : Pos),
    src f p (src f p (src f p (src f p q))) = q := by
  intro f p q
  obtain ⟨a, b, d⟩ := q
  fin_cases f <;> cases p <;> fin_cases a <;> fin_cases b <;> fin_cases d <;> rfl

set_option maxHeartbeats 1600000 in
/-- The centre position of every face is a fixed point of every move's
source map. -/
theorem src_center : ∀ (f : Fin 6) (p : Bool) (face : Fin 6),
    src f p (face, 1, 1) = (face, 1, 1) := by
  intro f p face
  fin_cases f <;> cases p <;> fin_cases face <;> rfl

set_option maxHeartbeats 3200000 in
/-- The source map of every move permutes the 54 positions. -/
theorem src_perm : ∀ (f : Fin 6) (p : Bool),
    (allPos.map (src f p)).Perm allPos := by
  intro f p
  fin_cases f <;> cases p <;> decide

/-- Reading a moved cube at a position reads the original cube at the
source position. -/
theorem cval_applyFaceMove (f : Fin 6) (p : Bool) (c : Cube) (q : Pos) :
    cval (applyFaceMove f p c) q = cval c (src f p q) := by
  rw [applyFaceMove_src f p c]; rfl

/-- Applying a move and then its primed-flipped variant restores the
cube. -/
theorem applyFace_inv (f : Fin 6) (p : Bool) (c : Cube) :
    applyFaceMove f (!p) (applyFaceMove f p c) = c := by
  funext a b d
  have h : cval (applyFaceMove f (!p) (applyFaceMove f p c)) (a, b, d) = cval c (a, b, d) := by
    rw [cval_applyFaceMove, cval_applyFaceMove, src_invq]
  exact h

/-- Applying the same move four times restores the cube. -/
theorem applyFace_pow4 (f : Fin 6) (p : Bool) (c : Cube) :
    applyFaceMove f p (applyFaceMove f p (applyFaceMove f p (applyFaceMove f p c))) = c := by
  funext a b d
  have h : cval (applyFaceMove f p (applyFaceMove f p (applyFaceMove f p (applyFaceMove f p c))))
      (a, b, d) = cval c (a, b, d) := by
    rw [cval_applyFaceMove, cval_applyFaceMove, cval_applyFaceMove, cval_applyFaceMove, src_pow4q]
  exact h

/-- Parsing any of the 12 `basic_moves` tokens succeeds and dispatches to
the matching face move. -/
theorem apply_move_token (c : Cube) (f : Fin 6) (p : Bool) :
    apply_move c (moveTokenStr f p) = some (applyFaceMove f p c) := by
  fin_cases f <;> cases p <;> rfl

/-- C2: for every cube state and every one of the 12 moves, applying the
move via `apply_move` and then the token with the primedness flipped
returns the cube to the original state, and applying the same move token
four consecutive times also returns the cube to the original state. -/
theorem C2_move_inverse_and_fourfold (c : Cube) (f : Fin 6) (p : Bool) :
    ((apply_move c (moveTokenStr f p)).bind fun c1 =>
      apply_move c1 (moveTokenStr f (!p))) = some c
    ∧ ((((apply_move c (moveTokenStr f p)).bind fun c1 =>
        apply_move c1 (moveTokenStr f p)).bind fun c2 =>
        apply_move c2 (moveTokenStr f p)).bind fun c3 =>
        apply_move c3 (moveTokenStr f p)) = some c := by
  constructor
  · rw [apply_move_token]
    show apply_move (applyFaceMove f p c) (moveTokenStr f (!p)) = some c
    rw [apply_move_token, applyFace_inv]
  · rw [apply_move_token]
    show ((apply_move (applyFaceMove f p c) (moveTokenStr f p)).bind fun c2 =>
        apply_move c2 (moveTokenStr f p)).bind (fun c3 =>
        apply_move c3 (moveTokenStr f p)) = some c
    rw [apply_move_token]
    show (apply_move (applyFaceMove f p (applyFaceMove f p c))
        (moveTokenStr f p)).bind (fun c3 => apply_move c3 (moveTokenStr f p)) = some c
    rw [apply_move_token]
    show apply_move (applyFaceMove f p (applyFaceMove f p (applyFaceMove f p c)))
        (moveTokenStr f p) = some c
    rw [apply_move_token, applyFace_pow4]

set_option maxRecDepth 8000 in
/-- C3: starting from the solved cube, applying the four-move sequence
R U R-prime U-prime six consecutive times (24 moves in one
`apply_algorithm` call) raises no error and returns the cube to a state
where `is_solved` is true. -/
theorem C3_sexy_move_six_times_solved :
    (apply_algorithm initialCube sexySix).2 = true
    ∧ is_solved (apply_algorithm initialCube sexySix).1 = true := by decide

/-- C9: every one of the 12 moves leaves the centre sticker (position
(1,1)) of all six faces unchanged. -/
theorem C9_centers_fixed (c : Cube) (f : Fin 6) (p : Bool) (face : Fin 6) :
    applyFaceMove f p c face 1 1 = c face 1 1 := by
  have h := cval_applyFaceMove f p c (face, 1, 1)
  rw [src_center] at h
  exact h

/-- C8: on an input that is already solved, both solvers return found =
true, an empty move sequence and zero explored nodes, without starting a
search. -/
theorem C8_solved_input_immediate (c : Cube) (d1 d2 : Nat) (h : is_solved c = true) :
    bfs_solve d1 c = PyResult.ok (true, [], 0)
    ∧ astar_solve d2 c = PyResult.ok (true, [], 0) := by
  constructor <;> simp [bfs_solve, astar_solve, bfs_solve_mem, astar_solve_mem, h]

/-- Witness for C8 at the solved cube with the default depth bounds. -/
theorem C8_solved_input_immediate_witness :
    bfs_solve 5 initialCube = PyResult.ok (true, [], 0)
    ∧ astar_solve 8 initialCube = PyResult.ok (true, [], 0) :=
  C8_solved_input_immediate initialCube 5 8 (by decide)

/-- C10: neither solver ever writes the caller's faces array: for any
store, any valid input-array id and any depth bounds, the input array is
unchanged by the call (including the TypeError path, which allocates
fresh arrays only). -/
theorem C10_solvers_preserve_input_array (s : Store) (cubeId d1 d2 : Nat)
    (h : cubeId < s.next) :
    (bfs_solve_mem d1 s cubeId).1.mem cubeId = s.mem cubeId
    ∧ (astar_solve_mem d2 s cubeId).1.mem cubeId = s.mem cubeId := by
  have h1 : cubeId ≠ s.next := Nat.ne_of_lt h
  have h2 : cubeId ≠ s.next + 1 := by omega
  constructor <;>
    · simp only [bfs_solve_mem, astar_solve_mem, halloc]
      split
      · rfl
      · simp [h1, h2]

/-- Witness for C10: a store holding one scrambled cube. -/
theorem C10_solvers_preserve_input_array_witness :
    (bfs_solve_mem 5 (Store.mk (fun _ => move_F false initialCube) 1) 0).1.mem 0
        = (Store.mk (fun _ => move_F false initialCube) 1).mem 0
    ∧ (astar_solve_mem 8 (Store.mk (fun _ => move_F false initialCube) 1) 0).1.mem 0
        = (Store.mk (fun _ => move_F false initialCube) 1).mem 0 :=
  C10_solvers_preserve_input_array _ 0 5 8 (by decide)

/-- C1 (the code bug): the cube one F move away from solved is at true
distance exactly 1 from a solved state (it is not solved, and one move
solves it), 1 is within the default bound 5, yet `BFSSolver.solve`
raises TypeError instead of returning a length-1 solution, because the
visited-set key contains unhashable numpy row arrays. -/
theorem C1_bfs_crashes_at_distance_one :
    is_solved (move_F false initialCube) = false
    ∧ is_solved (applyFaceMove 0 true (move_F false initialCube)) = true
    ∧ bfs_solve 5 (move_F false initialCube) = PyResult.typeError := by decide

/-- The heuristic vanishes exactly when every sticker matches its face
centre. -/
theorem heuristic_eq_zero_iff (c : Cube) :
    heuristic c = 0 ↔ ∀ (f : Fin 6) (r j : Fin 3), c f r j = c f 1 1 := by
  simp [heuristic, List.sum_eq_zero_iff, List.mem_map, List.mem_finRange]

/-- `is_solved` holds exactly when every sticker matches its face corner
(0,0). -/
theorem is_solved_iff (c : Cube) :
    is_solved c = true ↔ ∀ (f : Fin 6) (r j : Fin 3), c f r j = c f 0 0 := by
  simp [is_solved, List.all_eq_true, List.mem_finRange]

/-- C5: for every cube state, the A* heuristic is zero if and only if
`is_solved` returns true. -/
theorem C5_heuristic_zero_iff_solved (c : Cube) :
    heuristic c = 0 ↔ is_solved c = true := by
  rw [heuristic_eq_zero_iff, is_solved_iff]
  constructor
  · intro h f r j
    rw [h f r j, h f 0 0]
  · intro h f r j
    rw [h f r j, h f 1 1]

/-- Each move permutes the stickers, so the 54-sticker multiset is
unchanged. -/
theorem stickers_applyFaceMove (f : Fin 6) (p : Bool) (c : Cube) :
    stickers (applyFaceMove f p c) = stickers c := by
  have hfun : cval (applyFaceMove f p c) = fun q => cval c (src f p q) :=
    funext (cval_applyFaceMove f p c)
  show ((allPos.map (cval (applyFaceMove f p c)) : List Nat) : Multiset Nat)
      = ((allPos.map (cval c) : List Nat) : Multiset Nat)
  rw [hfun]
  rw [show (fun q => cval c (src f p q)) = cval c ∘ src f p from rfl]
  rw [← List.map_map]
  exact Multiset.coe_eq_coe.mpr ((src_perm f p).map (cval c))

/-- C4: every one of the 12 moves leaves the multiset of all 54 sticker
values unchanged; consequently, on every state reachable from the solved
cube each of the six colour values occurs exactly nine times. -/
theorem C4_sticker_conservation :
    (∀ (c : Cube) (f : Fin 6) (p : Bool),
      stickers (applyFaceMove f p c) = stickers c)
    ∧ (∀ c, ReachableCube c → ∀ v, v < 6 → (stickers c).count v = 9) := by
  constructor
  · exact fun c f p => stickers_applyFaceMove f p c
  · intro c hc
    induction hc with
    | start => decide
    | step c f p hr ih =>
      intro v hv
      rw [stickers_applyFaceMove]
      exact ih v hv

/-- Witness for C4: on the cube one F move from solved, colour 3 still
occurs nine times. -/
theorem C4_sticker_conservation_witness :
    (stickers (applyFaceMove 0 false initialCube)).count 3 = 9 :=
  C4_sticker_conservation.2 (applyFaceMove 0 false initialCube)
    (ReachableCube.step initialCube 0 false ReachableCube.start) 3 (by decide)

/-- C6 counterexample: the token F-prime-x (a valid face letter and
apostrophe followed by an extra character) is not well formed under the
grammar stated by the claim, yet `apply_move` accepts it instead of
failing with InvalidMove. -/
theorem C6_counterexample_prime_suffix :
    specTokenWellFormed primeXtoken = false
    ∧ (apply_move initialCube (String.mk primeXtoken)).isSome = true := by decide

/-- Parsing succeeds exactly on the tokens described by
`codeTokenAccepted`. -/
theorem parse_move_isSome (m : List Char) :
    (parse_move m).isSome = codeTokenAccepted m := by
  unfold parse_move codeTokenAccepted
  rcases h : pyStrip m with _ | ⟨c0, _ | ⟨c1, rest⟩⟩
  · simp
  · simp only []
    by_cases hF : c0 = 'F'
    · simp [hF, isFaceLetter]
    · by_cases hB : c0 = 'B'
      · simp [hB, isFaceLetter]
      · by_cases hU : c0 = 'U'
        · simp [hU, isFaceLetter]
        · by_cases hD : c0 = 'D'
          · simp [hD, isFaceLetter]
          · by_cases hL : c0 = 'L'
            · simp [hL, isFaceLetter]
            · by_cases hR : c0 = 'R'
              · simp [hR, isFaceLetter]
              · simp [isFaceLetter, hF, hB, hU, hD, hL, hR]
  · simp only []
    by_cases hq : c1 = primeChar
    · simp only [hq, if_pos rfl]
      by_cases hF : c0 = 'F'
      · simp [hF, isFaceLetter]
      · by_cases hB : c0 = 'B'
        · simp [hB, isFaceLetter]
        · by_cases hU : c0 = 'U'
          · simp [hU, isFaceLetter]
          · by_cases hD : c0 = 'D'
            · simp [hD, isFaceLetter]
            · by_cases hL : c0 = 'L'
              · simp [hL, isFaceLetter]
              · by_cases hR : c0 = 'R'
                · simp [hR, isFaceLetter]
                · simp [isFaceLetter, hF, hB, hU, hD, hL, hR]
    · simp [hq, isFaceLetter]

/-- C6 amended: `apply_move` fails with InvalidMove exactly on tokens
whose stripped form is neither a lone face letter nor a face letter whose
second character is an apostrophe; characters after the apostrophe are
ignored rather than rejected. -/
theorem C6_amended_accepted_tokens (c : Cube) (tok : String) :
    (apply_move c tok).isSome = codeTokenAccepted tok.data := by
  show ((parse_move tok.data).map fun fp => applyFaceMove fp.1 fp.2 c).isSome
      = codeTokenAccepted tok.data
  rw [← parse_move_isSome]
  rcases parse_move tok.data with _ | fp <;> rfl

/-- C7: `apply_algorithm` hands the whitespace-separated tokens of its
argument to the left-to-right loop, and that loop fails fast: on the
first invalid token it raises (error flag false) leaving the cube in the
state produced by the prior valid moves, and never applies the remaining
tokens. -/
theorem C7_apply_algorithm_fail_fast :
    (∀ (c : Cube) (alg : String),
      apply_algorithm c alg = applyTokens c (pySplit alg.data))
    ∧ (∀ (c : Cube) (pre : List (List Char)) (bad : List Char) (rest : List (List Char)),
        (∀ t ∈ pre, (parse_move t).isSome = true) →
        parse_move bad = none →
        applyTokens c (pre ++ bad :: rest) = (applyChain c pre, false)) := by
  constructor
  · intro c alg
    rfl
  · intro c pre bad rest
    induction pre generalizing c with
    | nil =>
      intro _ hbad
      simp [applyTokens, applyChain, apply_move_chars, hbad]
    | cons t ts ih =>
      intro hpre hbad
      have ht := hpre t (List.mem_cons_self t ts)
      rcases hs : parse_move t with _ | fp
      · rw [hs] at ht
        simp at ht
      · have hstep : apply_move_chars c t = some (applyFaceMove fp.1 fp.2 c) := by
          unfold apply_move_chars
          rw [hs]
          rfl
        have hrest := ih (applyFaceMove fp.1 fp.2 c)
          (fun u hu => hpre u (List.mem_cons_of_mem t hu)) hbad
        calc applyTokens c ((t :: ts) ++ bad :: rest)
            = applyTokens (applyFaceMove fp.1 fp.2 c) (ts ++ bad :: rest) := by
              simp [applyTokens, hstep]
          _ = (applyChain (applyFaceMove fp.1 fp.2 c) ts, false) := hrest
          _ = (applyChain c (t :: ts), false) := by
              simp [applyChain, hstep]

/-- Witness for C7: applying R, U, then the invalid token X stops at X
with the cube in the R-U state; the trailing R-prime token is ignored. -/
theorem C7_apply_algorithm_fail_fast_witness :
    applyTokens initialCube ([['R'], ['U']] ++ ['X'] :: [['R', primeChar]])
      = (applyChain initialCube [['R'], ['U']], false) :=
  C7_apply_algorithm_fail_fast.2 initialCube [['R'], ['U']] ['X'] [['R', primeChar]]
    (by decide) (by decide)
